import Mathlib

/-!
# Verification of the trendyy alert scoring engine

Shallow embedding of the alert-scoring pipeline of the `trendyy` repository:

* `app/analytics/bis.py` — Biometric Integrity Score (BIS) alerts,
* `app/analytics/lost_generation.py` — Lost Generation / FAFI alerts,
* `app/utils/migration_scoring.py` — ML inflow scoring and tiering,
* `app/services/analytics_service.py` — ML inference adapter
  (`AnalyticsService.predict_migration_model`),
* `app/core/data_loader.py` — numeric coercion of measure columns.

Numeric values are modelled as exact rationals (`ℚ`); decimal literals of the
Python source (`0.30`, `1e-9`, …) are read as the exact decimal rationals.
Pandas tables are modelled as lists of records, pandas `NaN` cells as an
explicit `na` constructor, and the serialized ML model artifact as an abstract
function parameter (it is produced outside the repository).
-/

namespace Trendyy

/-- Model of Python `round(x, 2)`: round to the nearest multiple of `1/100`
(written as a half-up floor, which rounds half up; Python rounds half to even,
but the two agree away from exact ties, and no tie arises in this
development). -/
def round2 (x : ℚ) : ℚ := (((x * 100 + 1 / 2).floor : ℤ) : ℚ) / 100

/-- Model of `np.clip(x, 0.0, 1.0)`. -/
def clip01 (x : ℚ) : ℚ := if x < 0 then 0 else if 1 < x then 1 else x

/-- Model of the pandas idiom `series.replace(0, 1)` applied to an integer
denominator column (`bis.py` line 182, `lost_generation.py` line 99). -/
def replace_zero_one (x : ℤ) : ℤ := if x = 0 then 1 else x

/-! ## Tiering primitives -/

/-- `bis.py` `_tier_capture_gap`. -/
def tier_capture_gap (ratio : ℚ) : String :=
  if ratio < 0.30 then "LOW"
  else if ratio ≤ 0.60 then "MEDIUM"
  else "HIGH"

/-- `bis.py` `_tier_imbalance`. -/
def tier_imbalance (score : Option ℚ) : Option String :=
  match score with
  | none => none
  | some s =>
    some (if s < 0.20 then "LOW" else if s ≤ 0.40 then "MEDIUM" else "HIGH")

/-- `lost_generation.py` `_tier_fafi_ratio`. -/
def tier_fafi_ratio (ratio : ℚ) : String :=
  if ratio < 0.20 then "LOW"
  else if ratio ≤ 0.45 then "MEDIUM"
  else "HIGH"

/-- `migration_scoring.py` `inflow_tier`. -/
def inflow_tier (inflow_score watch surge : ℚ) : String :=
  if inflow_score ≥ surge then "SURGE"
  else if inflow_score ≥ watch then "WATCH"
  else "NORMAL"

/-! ## Metric derivation -/

/-- `bis.py` lines 180–183: `(enrol_total - bio_total) / enrol_total.replace(0, 1)`. -/
def capture_gap_ratio (enrol_total bio_total : ℤ) : ℚ :=
  ((enrol_total - bio_total : ℤ) : ℚ) / ((replace_zero_one enrol_total : ℤ) : ℚ)

/-- `lost_generation.py` lines 94–96: `enrol_age_0_5 - bio_age_5_17_total`. -/
def fafi_value (enrol_age_0_5 bio_age_5_17_total : ℤ) : ℤ :=
  enrol_age_0_5 - bio_age_5_17_total

/-- `lost_generation.py` lines 98–100: `fafi_value / enrol_age_0_5.replace(0, 1)`. -/
def fafi_ratio (enrol_age_0_5 bio_age_5_17_total : ℤ) : ℚ :=
  ((fafi_value enrol_age_0_5 bio_age_5_17_total : ℤ) : ℚ) /
    ((replace_zero_one enrol_age_0_5 : ℤ) : ℚ)

/-- The `1e-9` guard added to the rescaling denominator in
`migration_scoring.py` line 20. -/
def eps9 : ℚ := 1 / 1000000000

/-- Core arithmetic of `migration_scoring.py` `to_inflow_score` lines 17–25,
taking `raw = np.expm1(s_log)` (the value after the `expm1` back-transform)
as input: scale to `0–1` against the `[raw_min, raw_max]` window, clip, map
to `[3.0, 6.0]`, round to 2 decimals. -/
def to_inflow_score_raw (raw raw_min raw_max : ℚ) : ℚ :=
  let denom := (raw_max - raw_min) + eps9
  let x := clip01 ((raw - raw_min) / denom)
  round2 (3 + (6 - 3) * x)

/-- `migration_scoring.py` `to_inflow_score`.  `np.expm1` is transcendental,
so the embedding abstracts it as a function parameter `expm1`. -/
def to_inflow_score (expm1 : ℚ → ℚ) (s_log raw_min raw_max : ℚ) : ℚ :=
  to_inflow_score_raw (expm1 s_log) raw_min raw_max

/-- The value `3 + 3*x` of `to_inflow_score` before the final `round(..., 2)`:
used to compare the tier of the rounded score with the tier of the unrounded
score. -/
def inflow_score_unrounded (raw raw_min raw_max : ℚ) : ℚ :=
  3 + (6 - 3) * clip01 ((raw - raw_min) / ((raw_max - raw_min) + eps9))

/-- `migration_scoring.py` `recommendations_for_tier` /
`RECOMMENDATIONS_MIGRATION` (tier labels produced by `inflow_tier` are
already upper-case, so `tier.upper()` is the identity here). -/
def recommendations_for_tier (tier : String) : List String :=
  if tier = "NORMAL" then ["Monitor trends"]
  else if tier = "WATCH" then
    ["Increase staff shifts for 14 days", "Add multilingual helpdesk"]
  else if tier = "SURGE" then
    ["Open 2 temporary enrollment/update camps", "Deploy mobile Aadhaar van",
     "Increase ration shop capacity", "Set up drinking water + shade"]
  else ["Monitor trends"]

/-! ## Numeric coercion (`pd.to_numeric(col, errors="coerce").fillna(0)`) -/

/-- A raw measure cell as seen by `pd.to_numeric(errors="coerce")`: either a
numeric value or `NaN` (an unparseable entry). -/
inductive Cell where
  | num (q : ℚ)
  | na
deriving DecidableEq, Repr

/-- `pd.to_numeric(col, errors="coerce").fillna(0)` applied to one cell
(`bis.py` line 148, `lost_generation.py` line 80, `data_loader.py` line 121). -/
def coerce_numeric : Cell → ℚ
  | .num q => q
  | .na => 0

/-! ## Tables and the Temporal Normalizer -/

/-- A parsed calendar date (`pd.to_datetime` result). -/
structure DateT where
  year : ℕ
  month : ℕ
  day : ℕ
deriving DecidableEq, Repr

/-- `date.dt.to_period("M").astype(str)`: format a parsed date as `YYYY-MM`. -/
def month_str (d : DateT) : String :=
  toString d.year ++ "-" ++ (if d.month < 10 then "0" ++ toString d.month else toString d.month)

/-- One row of the merged Aadhaar table.  `rawDate` is the unparsed date text,
`date` the parsed value (`none` = `NaT`, meaningful once the frame's date
column has datetime dtype), `month` the `YYYY-MM` bucket (meaningful once the
frame has a month column; `none` = `NaN`).  Measure columns are raw cells;
`iris_update`/`finger_update` model the optional modality-update columns
(numeric when present). -/
structure Row where
  rawDate : String
  date : Option DateT
  month : Option String
  state : String
  district : String
  pincode : String
  age_0_5 : Cell
  age_5_17 : Cell
  age_18_greater : Cell
  bio_age_5_17 : Cell
  bio_age_17_ : Cell
  iris_update : ℚ
  finger_update : ℚ
deriving DecidableEq, Repr

/-- A pandas DataFrame for this pipeline: `parsed` records whether the `date`
column already has datetime dtype, `hasMonth` whether a `month` column exists,
`hasAux` whether both an iris-update and a fingerprint-update column were
detected (`bis.py` `_detect_optional_bio_columns`). -/
structure Frame where
  parsed : Bool
  hasMonth : Bool
  hasAux : Bool
  rows : List Row
deriving DecidableEq, Repr

/-- `_ensure_month_column` (`bis.py` lines 11–26, `lost_generation.py` lines
11–18), parameterized by the date parser `p` (`pd.to_datetime(dayfirst=True,
errors="coerce")`): parse `date` when its dtype is not yet datetime, drop
`NaT` rows, and add the `month` column unless it already exists. -/
def ensure_month_column (p : String → Option DateT) (f : Frame) : Frame :=
  let rows1 := if f.parsed then f.rows else
    f.rows.map (fun r => { r with date := p r.rawDate })
  let rows2 := rows1.filter (fun r => r.date.isSome)
  let rows3 := if f.hasMonth then rows2 else
    rows2.map (fun r => { r with month := r.date.map month_str })
  { f with parsed := true, hasMonth := true, rows := rows3 }

/-- `df["month"].dropna()` as a list of month strings. -/
def frame_months (f : Frame) : List String := f.rows.filterMap (·.month)

/-- `series.max()` over strings (pandas object-dtype max = Python string
comparison = lexicographic), `none` on an empty series. -/
def seriesMax? (l : List String) : Option String :=
  l.foldl (fun acc s =>
    match acc with
    | none => some s
    | some t => some (if t ≤ s then s else t)) none

/-! ## BIS pipeline (`bis.py` `compute_bis_alerts`) -/

/-- One group of `month_df.groupby(["state", "district", "pincode", "month"])`
with the summed (already coerced) measure columns. -/
structure BisGroup where
  state : String
  district : String
  pincode : String
  month : String
  age_0_5 : ℚ
  age_5_17 : ℚ
  age_18_greater : ℚ
  bio_age_5_17 : ℚ
  bio_age_17_ : ℚ
  iris_update : ℚ
  finger_update : ℚ
deriving DecidableEq, Repr

/-- Whether a row belongs to a group (same grouping key). -/
def bis_match (g : BisGroup) (r : Row) : Bool :=
  g.state == r.state && g.district == r.district &&
    g.pincode == r.pincode && some g.month == r.month

/-- Fold one row into a group's sums (measure cells coerced as in
`bis.py` lines 146–150). -/
def bis_add (g : BisGroup) (r : Row) : BisGroup :=
  { g with
    age_0_5 := g.age_0_5 + coerce_numeric r.age_0_5
    age_5_17 := g.age_5_17 + coerce_numeric r.age_5_17
    age_18_greater := g.age_18_greater + coerce_numeric r.age_18_greater
    bio_age_5_17 := g.bio_age_5_17 + coerce_numeric r.bio_age_5_17
    bio_age_17_ := g.bio_age_17_ + coerce_numeric r.bio_age_17_
    iris_update := g.iris_update + r.iris_update
    finger_update := g.finger_update + r.finger_update }

/-- A fresh group seeded from one row. -/
def bis_init (r : Row) : BisGroup :=
  { state := r.state, district := r.district, pincode := r.pincode,
    month := r.month.getD "",
    age_0_5 := coerce_numeric r.age_0_5, age_5_17 := coerce_numeric r.age_5_17,
    age_18_greater := coerce_numeric r.age_18_greater,
    bio_age_5_17 := coerce_numeric r.bio_age_5_17,
    bio_age_17_ := coerce_numeric r.bio_age_17_,
    iris_update := r.iris_update, finger_update := r.finger_update }

/-- `groupby(...).agg("sum")` over the month-filtered rows. -/
def bis_groupby (rows : List Row) : List BisGroup :=
  rows.foldl (fun acc r =>
    if acc.any (fun g => bis_match g r) then
      acc.map (fun g => if bis_match g r then bis_add g r else g)
    else acc ++ [bis_init r]) []

/-- `np.astype(int)` on an exact value: truncation toward zero
(`bis.py` lines 172–177). -/
def astype_int (q : ℚ) : ℤ := if 0 ≤ q then ⌊q⌋ else ⌈q⌉

/-- An aggregated group with the derived totals and ratios of
`bis.py` lines 171–194 (still unrounded). -/
structure BisDerived where
  state : String
  district : String
  pincode : String
  month : String
  enrol_total : ℤ
  bio_total : ℤ
  capture_gap_ratio : ℚ
  imbalance_score : Option ℚ
deriving DecidableEq, Repr

/-- Metric derivation for one BIS group (`bis.py` lines 171–194). -/
def bis_derive (hasAux : Bool) (g : BisGroup) : BisDerived :=
  let enrol_total := astype_int (g.age_0_5 + g.age_5_17 + g.age_18_greater)
  let bio_total := astype_int (g.bio_age_5_17 + g.bio_age_17_)
  { state := g.state, district := g.district, pincode := g.pincode,
    month := g.month,
    enrol_total := enrol_total, bio_total := bio_total,
    capture_gap_ratio := capture_gap_ratio enrol_total bio_total,
    imbalance_score :=
      if hasAux then
        some (|g.iris_update - g.finger_update| /
          (g.iris_update + g.finger_update + 1))
      else none }

/-- `bis.py` `_tags_for_alert`. -/
def tags_for_alert (capture_gap_tier : String) (imbalance_tier : Option String) :
    List String :=
  (if capture_gap_tier = "HIGH" then ["High capture gap"]
   else if capture_gap_tier = "MEDIUM" then ["Moderate capture gap"]
   else []) ++
  (if imbalance_tier = some "MEDIUM" ∨ imbalance_tier = some "HIGH" then
    ["Equipment / Operational anomaly"]
   else [])

/-- `bis.py` `_recommendations_for_alert`. -/
def recommendations_for_alert (capture_gap_tier : String)
    (imbalance_tier : Option String) : List String :=
  (if capture_gap_tier = "HIGH" then
    ["Prioritize biometric capture drives in this pincode",
     "Review enrolment vs biometric station coverage"]
   else if capture_gap_tier = "MEDIUM" then
    ["Plan additional biometric capture sessions",
     "Nudge residents to update biometrics during routine visits"]
   else ["Maintain current biometric capture coverage"]) ++
  (if imbalance_tier = some "MEDIUM" ∨ imbalance_tier = some "HIGH" then
    ["Check biometric equipment health (iris vs fingerprint)",
     "Audit operator workflows for iris and fingerprint capture balance"]
   else [])

/-- `app/schemas/biometric_alerts.py` `BiometricIntegrityAlert`. -/
structure BiometricIntegrityAlert where
  state : String
  district : String
  pincode : String
  month : String
  enrol_total : ℤ
  bio_total : ℤ
  capture_gap_ratio : ℚ
  capture_gap_tier : String
  imbalance_score : Option ℚ
  imbalance_tier : Option String
  tags : List String
  recommendations : List String
deriving DecidableEq, Repr

/-- Materialization of one alert record (`bis.py` lines 200–236): tiers are
computed from the unrounded metrics, the stored metrics are rounded to
2 decimals. -/
def mk_bis_alert (d : BisDerived) : BiometricIntegrityAlert :=
  let tier := tier_capture_gap d.capture_gap_ratio
  let itier := tier_imbalance d.imbalance_score
  { state := d.state, district := d.district, pincode := d.pincode,
    month := d.month,
    enrol_total := d.enrol_total, bio_total := d.bio_total,
    capture_gap_ratio := round2 d.capture_gap_ratio,
    capture_gap_tier := tier,
    imbalance_score := d.imbalance_score.map round2,
    imbalance_tier := itier,
    tags := tags_for_alert tier itier,
    recommendations := recommendations_for_alert tier itier }

/-- `compute_bis_alerts` up to the derived, metric-annotated groups for the
selected month (`bis.py` lines 122–194): empty-table guard, month selection
(requested, else latest), month filter, aggregation, derivation.  Returns `[]`
in each early-return case of the source. -/
def bis_derived_rows (p : String → Option DateT) (f : Frame)
    (month? : Option String) : List BisDerived :=
  if f.rows.isEmpty then [] else
  let f1 := ensure_month_column p f
  let months := frame_months f1
  let target := match month? with
    | some m => some m
    | none => seriesMax? months
  match target with
  | none => []
  | some m =>
    if m ∈ months then
      let month_rows := f1.rows.filter (fun r => r.month == some m)
      if month_rows.isEmpty then []
      else (bis_groupby month_rows).map (bis_derive f1.hasAux)
    else []

/-- `bis.py` `compute_bis_alerts`: derive, rank by `capture_gap_ratio`
descending, truncate to `limit`, materialize alert records. -/
def compute_bis_alerts (p : String → Option DateT) (f : Frame)
    (month? : Option String) (limit : ℕ) : List BiometricIntegrityAlert :=
  (((bis_derived_rows p f month?).mergeSort
      (fun a b => decide (b.capture_gap_ratio ≤ a.capture_gap_ratio))).take
    limit).map mk_bis_alert

/-! ## Lost Generation pipeline (`lost_generation.py`
`compute_lost_generation_alerts`) -/

/-- One group of `month_df.groupby(["state", "district", "month"])` with the
two summed measure columns used by FAFI. -/
structure LgGroup where
  state : String
  district : String
  month : String
  age_0_5 : ℚ
  bio_age_5_17 : ℚ
deriving DecidableEq, Repr

def lg_match (g : LgGroup) (r : Row) : Bool :=
  g.state == r.state && g.district == r.district && some g.month == r.month

def lg_add (g : LgGroup) (r : Row) : LgGroup :=
  { g with
    age_0_5 := g.age_0_5 + coerce_numeric r.age_0_5
    bio_age_5_17 := g.bio_age_5_17 + coerce_numeric r.bio_age_5_17 }

def lg_init (r : Row) : LgGroup :=
  { state := r.state, district := r.district, month := r.month.getD "",
    age_0_5 := coerce_numeric r.age_0_5,
    bio_age_5_17 := coerce_numeric r.bio_age_5_17 }

def lg_groupby (rows : List Row) : List LgGroup :=
  rows.foldl (fun acc r =>
    if acc.any (fun g => lg_match g r) then
      acc.map (fun g => if lg_match g r then lg_add g r else g)
    else acc ++ [lg_init r]) []

/-- An aggregated group with the derived FAFI metrics of
`lost_generation.py` lines 91–100 (still unrounded). -/
structure LgDerived where
  state : String
  district : String
  month : String
  enrol_age_0_5 : ℤ
  bio_age_5_17_total : ℤ
  fafi_value : ℤ
  fafi_ratio : ℚ
deriving DecidableEq, Repr

def lg_derive (g : LgGroup) : LgDerived :=
  let enrol_age_0_5 := astype_int g.age_0_5
  let bio_age_5_17_total := astype_int g.bio_age_5_17
  { state := g.state, district := g.district, month := g.month,
    enrol_age_0_5 := enrol_age_0_5, bio_age_5_17_total := bio_age_5_17_total,
    fafi_value := fafi_value enrol_age_0_5 bio_age_5_17_total,
    fafi_ratio := fafi_ratio enrol_age_0_5 bio_age_5_17_total }

/-- `lost_generation.py` `_impact_statement`. -/
def impact_statement (tier : String) : String :=
  if tier = "HIGH" then
    "Large cohort of children may face future authentication failures if biometrics are not updated soon."
  else if tier = "MEDIUM" then
    "Noticeable backlog of child biometric updates; risk will grow without targeted interventions."
  else
    "Child biometric updates are broadly aligned with enrolments; maintain routine coverage."

/-- `lost_generation.py` `_recommendations_for_tier`. -/
def recommendations_for_tier_lg (tier : String) : List String :=
  if tier = "HIGH" then
    ["Schedule school-based biometric update camps",
     "Deploy mobile biometric vans",
     "Set 30-day district update target"]
  else if tier = "MEDIUM" then
    ["Run biometric update drives in schools",
     "Increase awareness in parent communities"]
  else ["Continue routine biometric camps"]

/-- `app/schemas/biometric_alerts.py` `LostGenerationAlert`. -/
structure LostGenerationAlert where
  state : String
  district : String
  month : String
  enrol_age_0_5 : ℤ
  bio_age_5_17 : ℤ
  fafi_value : ℤ
  fafi_ratio : ℚ
  tier : String
  impact_statement : String
  recommendations : List String
deriving DecidableEq, Repr

/-- Materialization of one FAFI alert (`lost_generation.py` lines 105–124). -/
def mk_lg_alert (d : LgDerived) : LostGenerationAlert :=
  let tier := tier_fafi_ratio d.fafi_ratio
  { state := d.state, district := d.district, month := d.month,
    enrol_age_0_5 := d.enrol_age_0_5, bio_age_5_17 := d.bio_age_5_17_total,
    fafi_value := d.fafi_value,
    fafi_ratio := round2 d.fafi_ratio,
    tier := tier,
    impact_statement := impact_statement tier,
    recommendations := recommendations_for_tier_lg tier }

/-- `compute_lost_generation_alerts` up to the derived groups for the
selected month (`lost_generation.py` lines 63–100). -/
def lg_derived_rows (p : String → Option DateT) (f : Frame)
    (month? : Option String) : List LgDerived :=
  if f.rows.isEmpty then [] else
  let f1 := ensure_month_column p f
  let months := frame_months f1
  let target := match month? with
    | some m => some m
    | none => seriesMax? months
  match target with
  | none => []
  | some m =>
    if m ∈ months then
      let month_rows := f1.rows.filter (fun r => r.month == some m)
      if month_rows.isEmpty then []
      else (lg_groupby month_rows).map lg_derive
    else []

/-- `lost_generation.py` `compute_lost_generation_alerts`: derive, rank by
`fafi_ratio` descending, truncate to `limit`, materialize alert records. -/
def compute_lost_generation_alerts (p : String → Option DateT) (f : Frame)
    (month? : Option String) (limit : ℕ) : List LostGenerationAlert :=
  (((lg_derived_rows p f month?).mergeSort
      (fun a b => decide (b.fafi_ratio ≤ a.fafi_ratio))).take
    limit).map mk_lg_alert

/-! ## ML rolling features
(`analytics_service.py` lines 116–121:
`x.rolling(window=3, min_periods=1).mean().shift(1)` per (state, district)
series sorted by month). -/

/-- Mean of a list of rationals (`0` on the empty list; every window below is
nonempty). -/
def listMean (xs : List ℚ) : ℚ := xs.sum / (xs.length : ℚ)

/-- `series.rolling(window=3, min_periods=1).mean()`: entry `j` is the mean
of the up-to-3 trailing values ending at `j`. -/
def rollingMean3 (xs : List ℚ) : List ℚ :=
  (List.range xs.length).map (fun j => listMean ((xs.take (j + 1)).drop (j + 1 - 3)))

/-- `series.shift(1)`: entry `0` becomes `NaN`, entry `i` becomes the old
entry `i - 1`, the last old entry is dropped. -/
def shift1 (xs : List ℚ) : List (Option ℚ) :=
  none :: xs.dropLast.map some

/-- The `roll3` feature column computed for one (state, district) series
(`analytics_service.py` lines 116–121). -/
def roll3_feature (xs : List ℚ) : List (Option ℚ) :=
  shift1 (rollingMean3 xs)

/-- Spec-side definition, from the spec's words: the window of the up-to-3
months `{M-3 .. M-1}` immediately preceding month index `i`. -/
def precedingWindow3 (xs : List ℚ) (i : ℕ) : List ℚ :=
  (xs.take i).drop (i - 3)

/-! ## ML inference pipeline
(`analytics_service.py` `AnalyticsService.predict_migration_model`). -/

/-- One district-month row of the aggregated feature frame.  The engineered
feature columns are consumed only by the opaque model artifact, which the
embedding abstracts as a function on the row. -/
structure MlMonthRow where
  state : String
  district : String
  month : String
deriving DecidableEq, Repr

/-- One output row of `predict_migration_model`
(`state, district, month, ml_inflow_score, tier, recommendations`). -/
structure MlPrediction where
  state : String
  district : String
  month : String
  ml_inflow_score : ℚ
  tier : String
  recommendations : List String
deriving DecidableEq, Repr

/-- Month selection, prediction, scoring and tiering of
`predict_migration_model` up to the ranking step (`analytics_service.py`
lines 160–212).  `model` abstracts `self._model.predict` on one feature row
(the artifact is produced outside the repository), `expm1` abstracts
`np.expm1`.  Returns `[]` when the month series is empty (the source's empty
`pred_df` early return). -/
def ml_scored_rows (expm1 : ℚ → ℚ) (model : MlMonthRow → ℚ)
    (rows : List MlMonthRow) (month? : Option String)
    (raw_min raw_max watch surge : ℚ) : List MlPrediction :=
  let target : Option String := match month? with
    | some m => some m
    | none => seriesMax? (rows.map (fun r => r.month))
  match target with
  | none => []
  | some m =>
    let pred_rows := rows.filter (fun r => r.month == m)
    pred_rows.map (fun r =>
      let score := to_inflow_score expm1 (model r) raw_min raw_max
      let tier := inflow_tier score watch surge
      { state := r.state, district := r.district, month := r.month,
        ml_inflow_score := score, tier := tier,
        recommendations := recommendations_for_tier tier : MlPrediction })

/-- `predict_migration_model` (`analytics_service.py` lines 160–216): score
the target month's rows, rank by `ml_inflow_score` descending, keep `top_n`. -/
def predict_migration_model (expm1 : ℚ → ℚ) (model : MlMonthRow → ℚ)
    (rows : List MlMonthRow) (month? : Option String)
    (raw_min raw_max watch surge : ℚ) (top_n : ℕ) : List MlPrediction :=
  ((ml_scored_rows expm1 model rows month? raw_min raw_max watch
      surge).mergeSort
    (fun a b => decide (b.ml_inflow_score ≤ a.ml_inflow_score))).take top_n

/-! ## ML artifact loading
(`analytics_service.py` lines 48–87: lazy load of the model and threshold
artifacts with candidate-path search). -/

/-- Abstract filesystem path identifier. -/
abbrev PathId := ℕ

/-- Environment of one load attempt: the two ordered candidate lists, the
filesystem existence test, and the two loaders (`joblib.load`), where `none`
models a raised exception. -/
structure LoadEnv (M T : Type) where
  modelCandidates : List PathId
  threshCandidates : List PathId
  pathExists : PathId → Bool
  loadModel : PathId → Option M
  loadThresh : PathId → Option T

/-- The adapter's cached references `self._model` / `self._thresholds`. -/
structure AdapterState (M T : Type) where
  model : Option M
  thresholds : Option T
deriving DecidableEq, Repr

/-- One call's artifact-loading step (`analytics_service.py` lines 48–87):
skip when both caches are populated; otherwise resolve each artifact to the
first existing candidate path, raise (second component `false`) when either
is missing, then assign `self._model` and `self._thresholds` in that order —
an exception from the second load leaves the first assignment in place. -/
def load_artifacts {M T : Type} (env : LoadEnv M T) (st : AdapterState M T) :
    AdapterState M T × Bool :=
  if st.model.isSome ∧ st.thresholds.isSome then (st, true)
  else
    match env.modelCandidates.find? env.pathExists,
        env.threshCandidates.find? env.pathExists with
    | some mp, some tp =>
      match env.loadModel mp with
      | none => (st, false)
      | some m =>
        match env.loadThresh tp with
        | none => ({ st with model := some m }, false)
        | some t => ({ model := some m, thresholds := some t }, true)
    | _, _ => (st, false)

/-! ## Concrete sample inputs used by the witness theorems -/

/-- A concrete day-first date parser standing in for
`pd.to_datetime(dayfirst=True, errors="coerce")` on two known strings. -/
def sample_parse : String → Option DateT := fun s =>
  if s = "01/03/2025" then some ⟨2025, 3, 1⟩
  else if s = "02/03/2025" then some ⟨2025, 3, 2⟩
  else none

/-- One raw row with the measures of the spec's end-to-end scenario A. -/
def sample_row : Row :=
  { rawDate := "01/03/2025", date := none, month := none,
    state := "S", district := "D", pincode := "110001",
    age_0_5 := .num 50, age_5_17 := .num 30, age_18_greater := .num 20,
    bio_age_5_17 := .num 20, bio_age_17_ := .num 10,
    iris_update := 0, finger_update := 0 }

/-- A one-row frame before normalization (no month column yet). -/
def sample_frame : Frame :=
  { parsed := false, hasMonth := false, hasAux := false, rows := [sample_row] }

/-- `sample_row` with a pre-existing month value. -/
def sample_row_m : Row := { sample_row with month := some "2025-03" }

/-- A one-row frame that already has a month column. -/
def sample_frame_m : Frame :=
  { parsed := false, hasMonth := true, hasAux := false, rows := [sample_row_m] }

/-- The BIS alert produced from `sample_frame` (scenario A:
`enrol_total = 100`, `bio_total = 30`, ratio `0.70`, tier HIGH). -/
def sample_bis_alert : BiometricIntegrityAlert :=
  { state := "S", district := "D", pincode := "110001", month := "2025-03",
    enrol_total := 100, bio_total := 30,
    capture_gap_ratio := 7 / 10, capture_gap_tier := "HIGH",
    imbalance_score := none, imbalance_tier := none,
    tags := ["High capture gap"],
    recommendations := ["Prioritize biometric capture drives in this pincode",
                        "Review enrolment vs biometric station coverage"] }

/-- The FAFI alert produced from `sample_frame`
(`fafi_value = 30`, ratio `0.6`, tier HIGH). -/
def sample_lg_alert : LostGenerationAlert :=
  { state := "S", district := "D", month := "2025-03",
    enrol_age_0_5 := 50, bio_age_5_17 := 20, fafi_value := 30,
    fafi_ratio := 3 / 5, tier := "HIGH",
    impact_statement := "Large cohort of children may face future authentication failures if biometrics are not updated soon.",
    recommendations := ["Schedule school-based biometric update camps",
                        "Deploy mobile biometric vans",
                        "Set 30-day district update target"] }

/-- A load environment in which both artifact paths exist and the model
loads, but loading the threshold artifact raises. -/
def env_fail : LoadEnv Unit Unit :=
  { modelCandidates := [0], threshCandidates := [1],
    pathExists := fun _ => true,
    loadModel := fun _ => some (), loadThresh := fun _ => none }

/-- A load environment in which both artifacts load successfully. -/
def env_ok : LoadEnv Unit Unit :=
  { modelCandidates := [0], threshCandidates := [1],
    pathExists := fun _ => true,
    loadModel := fun _ => some (), loadThresh := fun _ => some () }

/-- The adapter's initial state: nothing cached. -/
def st0 : AdapterState Unit Unit := ⟨none, none⟩

/-! ## Helper lemmas -/

/-- `Rat.floor` agrees with the floor of the `FloorRing` instance. -/
theorem rat_floor_eq (q : ℚ) : (q.floor : ℤ) = ⌊q⌋ := by
  rw [Rat.floor_def' q, Rat.floor_def]

/-- Rounding to two decimals is monotone. -/
theorem round2_mono {a b : ℚ} (h : a ≤ b) : round2 a ≤ round2 b := by
  unfold round2
  rw [rat_floor_eq, rat_floor_eq]
  have h1 : ⌊a * 100 + 1 / 2⌋ ≤ ⌊b * 100 + 1 / 2⌋ := Int.floor_mono (by linarith)
  have h2 : ((⌊a * 100 + 1 / 2⌋ : ℤ) : ℚ) ≤ ((⌊b * 100 + 1 / 2⌋ : ℤ) : ℚ) :=
    Int.cast_le.mpr h1
  linarith

/-- `clip01` lands in the unit interval. -/
theorem clip01_mem (x : ℚ) : 0 ≤ clip01 x ∧ clip01 x ≤ 1 := by
  unfold clip01
  split_ifs with h1 h2 <;> constructor <;> linarith

/-- `find?` returns the first element satisfying the predicate. -/
theorem find?_eq_head?_filter {α : Type} (p : α → Bool) (l : List α) :
    l.find? p = (l.filter p).head? := by
  induction l with
  | nil => rfl
  | cons a l ih =>
    cases h : p a
    · simp only [List.find?_cons, List.filter_cons, h]
      exact ih
    · simp only [List.find?_cons, List.filter_cons, h]
      rfl

/-- When both candidate paths resolve and both loads succeed, the load step
from a thresholds-unset state fully populates the cache. -/
theorem load_artifacts_of_ok {M T : Type} (env : LoadEnv M T)
    (st : AdapterState M T) (hth : st.thresholds = none)
    (mp tp : PathId) (m : M) (t : T)
    (h1 : env.modelCandidates.find? env.pathExists = some mp)
    (h2 : env.threshCandidates.find? env.pathExists = some tp)
    (h3 : env.loadModel mp = some m) (h4 : env.loadThresh tp = some t) :
    load_artifacts env st = (⟨some m, some t⟩, true) := by
  unfold load_artifacts
  rw [if_neg (by simp [hth]), h1, h2]
  dsimp only
  rw [h3]
  dsimp only
  rw [h4]

/-- A failed load step never sets the thresholds reference. -/
theorem load_artifacts_fail_thresholds {M T : Type} (env : LoadEnv M T)
    (st : AdapterState M T) (hth : st.thresholds = none)
    (hfail : (load_artifacts env st).2 = false) :
    (load_artifacts env st).1.thresholds = none := by
  unfold load_artifacts at *
  rw [if_neg (by simp [hth])] at *
  rcases hm : env.modelCandidates.find? env.pathExists with _ | mp <;>
    rcases ht : env.threshCandidates.find? env.pathExists with _ | tp <;>
      simp_all
  rcases hlm : env.loadModel mp with _ | m <;> simp_all
  rcases hlt : env.loadThresh tp with _ | t <;> simp_all

/-- Ranking by a rational key descending and truncating yields a list that is
pairwise non-increasing in the key. -/
theorem pairwise_key_mergeSort_take {α : Type} (key : α → ℚ) (l : List α) (n : ℕ) :
    ((l.mergeSort (fun a b => decide (key b ≤ key a))).take n).Pairwise
      (fun a b => key b ≤ key a) := by
  have hs : (l.mergeSort (fun a b => decide (key b ≤ key a))).Pairwise
      (fun a b => decide (key b ≤ key a) = true) :=
    List.sorted_mergeSort
      (fun a b c h1 h2 => by
        simp only [decide_eq_true_eq] at *
        exact le_trans h2 h1)
      (fun a b => by
        simp only [Bool.or_eq_true, decide_eq_true_eq]
        exact le_total (key b) (key a))
      l
  have hs' : (l.mergeSort (fun a b => decide (key b ≤ key a))).Pairwise
      (fun a b => key b ≤ key a) :=
    hs.imp (fun h => by simpa using h)
  exact hs'.sublist (List.take_sublist _ _)

/-- Materializing the ranked rows with a record constructor that rounds the
key to two decimals keeps the list pairwise non-increasing. -/
theorem pairwise_round_key {α β : Type} (key : α → ℚ) (keyb : β → ℚ)
    (f : α → β) (hf : ∀ a, keyb (f a) = round2 (key a)) (l : List α) (n : ℕ) :
    (((l.mergeSort (fun a b => decide (key b ≤ key a))).take n).map f).Pairwise
      (fun a b => keyb b ≤ keyb a) := by
  rw [List.pairwise_map]
  exact (pairwise_key_mergeSort_take key l n).imp
    (fun h => by rw [hf, hf]; exact round2_mono h)

/-- Rank-truncate-materialize returns at most `n` records. -/
theorem length_mergeSort_take_map_le {α β : Type} (le : α → α → Bool)
    (f : α → β) (l : List α) (n : ℕ) :
    (((l.mergeSort le).take n).map f).length ≤ n := by
  simp [List.length_take]

/-- Rank-truncate returns at most `n` records. -/
theorem length_mergeSort_take_le {α : Type} (le : α → α → Bool)
    (l : List α) (n : ℕ) :
    ((l.mergeSort le).take n).length ≤ n := by
  simp [List.length_take]

/-- Auxiliary induction for `seriesMax?`: folding from a seeded accumulator
produces a maximum. -/
theorem seriesMax?_go (l : List String) (t : String) :
    ∃ mx, l.foldl (fun acc s =>
        match acc with
        | none => some s
        | some t => some (if t ≤ s then s else t)) (some t) = some mx ∧
      (mx = t ∨ mx ∈ l) ∧ t ≤ mx ∧ ∀ x ∈ l, x ≤ mx := by
  induction l generalizing t with
  | nil => exact ⟨t, rfl, Or.inl rfl, le_refl t, by simp⟩
  | cons a l ih =>
    obtain ⟨mx, hfold, hmem, hle, hall⟩ := ih (if t ≤ a then a else t)
    refine ⟨mx, hfold, ?_, ?_, ?_⟩
    · rcases hmem with h | h
      · split_ifs at h
        · exact Or.inr (h ▸ List.mem_cons_self a l)
        · exact Or.inl h
      · exact Or.inr (List.mem_cons_of_mem a h)
    · refine le_trans ?_ hle
      split_ifs with h
      · exact h
      · exact le_refl t
    · intro x hx
      rcases List.mem_cons.mp hx with rfl | hx
      · refine le_trans ?_ hle
        split_ifs with h
        · exact le_refl x
        · exact le_of_not_le h
      · exact hall x hx

/-- On a nonempty series `seriesMax?` returns a member that bounds every
element from above (the lexicographically latest month). -/
theorem seriesMax?_spec (l : List String) (h : l ≠ []) :
    ∃ mx, seriesMax? l = some mx ∧ mx ∈ l ∧ ∀ x ∈ l, x ≤ mx := by
  match l with
  | [] => exact absurd rfl h
  | a :: l =>
    obtain ⟨mx, hfold, hmem, hle, hall⟩ := seriesMax?_go l a
    refine ⟨mx, hfold, ?_, ?_⟩
    · rcases hmem with rfl | h
      · exact List.mem_cons_self _ _
      · exact List.mem_cons_of_mem _ h
    · intro x hx
      rcases List.mem_cons.mp hx with rfl | hx
      · exact hle
      · exact hall x hx

/-- A requested month that is not among the dataset's month buckets yields no
derived BIS groups. -/
theorem bis_derived_rows_not_mem (p : String → Option DateT) (f : Frame)
    (m : String) (hm : m ∉ frame_months (ensure_month_column p f)) :
    bis_derived_rows p f (some m) = [] := by
  unfold bis_derived_rows
  split
  · rfl
  · exact if_neg hm

/-- A requested month that is not among the dataset's month buckets yields no
derived FAFI groups. -/
theorem lg_derived_rows_not_mem (p : String → Option DateT) (f : Frame)
    (m : String) (hm : m ∉ frame_months (ensure_month_column p f)) :
    lg_derived_rows p f (some m) = [] := by
  unfold lg_derived_rows
  split
  · rfl
  · exact if_neg hm

/-! ## Claim theorems -/

/-- Claim C1: for every aggregated group, `capture_gap_ratio` equals
`(enrol_total - bio_total) / enrol_total` with the denominator substituted by
`1` when `enrol_total = 0` (so the zero case equals `-bio_total`, a finite
sentinel); likewise `fafi_value = enrol_age_0_5 - bio_age_5_17_total` and
`fafi_ratio = fafi_value / max(enrol_age_0_5, 1)`. -/
theorem capture_gap_and_fafi_formula (e b e' b' : ℤ) (he' : 0 ≤ e') :
    (e = 0 → capture_gap_ratio e b = -(b : ℚ)) ∧
    (e ≠ 0 → capture_gap_ratio e b = ((e : ℚ) - (b : ℚ)) / (e : ℚ)) ∧
    fafi_value e' b' = e' - b' ∧
    fafi_ratio e' b' = ((fafi_value e' b' : ℤ) : ℚ) / ((max e' 1 : ℤ) : ℚ) := by
  refine ⟨?_, ?_, rfl, ?_⟩
  · intro he
    subst he
    simp [capture_gap_ratio, replace_zero_one]
  · intro he
    simp [capture_gap_ratio, replace_zero_one, he]
  · have h1 : replace_zero_one e' = max e' 1 := by
      unfold replace_zero_one
      split_ifs with h <;> omega
    rw [fafi_ratio, h1]

/-- Witness for C1 at `enrol_total = 2, bio_total = 1` and
`enrol_age_0_5 = 5, bio_age_5_17_total = 7`. -/
theorem capture_gap_and_fafi_formula_witness :
    capture_gap_ratio 2 1 = ((2 : ℚ) - 1) / 2 ∧
    fafi_ratio 5 7 = ((fafi_value 5 7 : ℤ) : ℚ) / ((max (5 : ℤ) 1 : ℤ) : ℚ) :=
  ⟨(capture_gap_and_fafi_formula 2 1 5 7 (by norm_num)).2.1 (by norm_num),
   (capture_gap_and_fafi_formula 2 1 5 7 (by norm_num)).2.2.2⟩

/-- Claim C2: the tier classifiers implement exactly the fixed boundaries of
the spec table — capture-gap LOW iff `r < 0.30`, MEDIUM iff
`0.30 ≤ r ≤ 0.60`, HIGH iff `r > 0.60`; FAFI LOW iff `r < 0.20`, MEDIUM iff
`0.20 ≤ r ≤ 0.45`, HIGH iff `r > 0.45`; and (for threshold bundles with
`watch ≤ surge`) ML inflow NORMAL iff `s < watch`, WATCH iff
`watch ≤ s < surge`, SURGE iff `s ≥ surge`. -/
theorem tier_boundaries (r fr s watch surge : ℚ) (hws : watch ≤ surge) :
    (tier_capture_gap r = "LOW" ↔ r < 0.30) ∧
    (tier_capture_gap r = "MEDIUM" ↔ 0.30 ≤ r ∧ r ≤ 0.60) ∧
    (tier_capture_gap r = "HIGH" ↔ 0.60 < r) ∧
    (tier_fafi_ratio fr = "LOW" ↔ fr < 0.20) ∧
    (tier_fafi_ratio fr = "MEDIUM" ↔ 0.20 ≤ fr ∧ fr ≤ 0.45) ∧
    (tier_fafi_ratio fr = "HIGH" ↔ 0.45 < fr) ∧
    (inflow_tier s watch surge = "NORMAL" ↔ s < watch) ∧
    (inflow_tier s watch surge = "WATCH" ↔ watch ≤ s ∧ s < surge) ∧
    (inflow_tier s watch surge = "SURGE" ↔ surge ≤ s) := by
  unfold tier_capture_gap tier_fafi_ratio inflow_tier
  refine ⟨?_, ?_, ?_, ?_, ?_, ?_, ?_, ?_, ?_⟩ <;>
    split_ifs with h1 h2 <;> simp_all <;> try linarith

/-- Witness for C2: exactly `0.30` classifies MEDIUM and a `4.5` score with
`watch = 4, surge = 5` classifies WATCH. -/
theorem tier_boundaries_witness :
    tier_capture_gap 0.30 = "MEDIUM" ∧ inflow_tier 4.5 4 5 = "WATCH" :=
  ⟨((tier_boundaries 0.30 0 4.5 4 5 (by norm_num)).2.1).mpr (by norm_num),
   ((tier_boundaries 0.30 0 4.5 4 5 (by norm_num)).2.2.2.2.2.2.2.1).mpr
      (by norm_num)⟩

/-- Claim C3: the 3-month rolling feature at position `i ≥ 1` of a
(state, district) series is the mean of the up-to-3 immediately preceding
values (never the value at `i` itself), and for a 4-month series the feature
at month 4 is the mean of months 1–3. -/
theorem roll3_no_leakage (xs : List ℚ) (i : ℕ) (h1 : 1 ≤ i) (h2 : i < xs.length) :
    (roll3_feature xs)[i]? = some (some (listMean (precedingWindow3 xs i))) ∧
    (∀ a b c d : ℚ,
      (roll3_feature [a, b, c, d])[3]? = some (some ((a + b + c) / 3))) := by
  constructor
  · obtain ⟨j, rfl⟩ : ∃ j, i = j + 1 := ⟨i - 1, by omega⟩
    have hlen : (rollingMean3 xs).length = xs.length := by
      simp [rollingMean3]
    rw [roll3_feature, shift1, List.getElem?_cons_succ, List.getElem?_map,
      List.getElem?_dropLast, if_pos (by omega)]
    rw [rollingMean3, List.getElem?_map, List.getElem?_range (by omega)]
    rfl
  · intro a b c d
    show some (some (listMean ((([a, b, c, d].take 3).drop 0)))) = _
    simp [listMean]
    ring

/-- Witness for C3 on the series `[1, 2, 3, 10]` at month index 3. -/
theorem roll3_no_leakage_witness :
    (roll3_feature [1, 2, 3, 10])[3]? =
      some (some (listMean (precedingWindow3 [1, 2, 3, 10] 3))) :=
  (roll3_no_leakage [1, 2, 3, 10] 3 (by norm_num) (by norm_num)).1

/-- Counterexample to C4 as stated: when the model artifact loads but the
thresholds artifact fails to load, the load step fails yet the cached model
reference is set — not "both cached references remain unset". -/
theorem load_partial_cache_counterexample :
    (load_artifacts env_fail st0).2 = false ∧
    (load_artifacts env_fail st0).1.model ≠ none := by
  constructor
  · rfl
  · decide

/-- Claim C4 (amended): on first invocation the adapter resolves each
artifact to the first existing path of its ordered candidate list; a missing
artifact is a reported failure with no state change; after any failure the
thresholds reference remains unset (though the model reference may have been
assigned before a thresholds-load failure), so the next call — whose guard
re-enters the load whenever either reference is unset — retries the full
load rather than operating on the half-loaded state. -/
theorem load_artifacts_retry {M T : Type} (env env2 : LoadEnv M T)
    (st : AdapterState M T) (hth : st.thresholds = none) :
    (env.modelCandidates.find? env.pathExists =
      (env.modelCandidates.filter env.pathExists).head?) ∧
    ((env.modelCandidates.find? env.pathExists = none ∨
      env.threshCandidates.find? env.pathExists = none) →
      load_artifacts env st = (st, false)) ∧
    ((load_artifacts env st).2 = false →
      (load_artifacts env st).1.thresholds = none) ∧
    (∀ mp tp m t, env2.modelCandidates.find? env2.pathExists = some mp →
      env2.threshCandidates.find? env2.pathExists = some tp →
      env2.loadModel mp = some m → env2.loadThresh tp = some t →
      (load_artifacts env st).2 = false →
      load_artifacts env2 (load_artifacts env st).1 = (⟨some m, some t⟩, true)) := by
  refine ⟨find?_eq_head?_filter _ _, ?_,
    load_artifacts_fail_thresholds env st hth, ?_⟩
  · intro hmiss
    unfold load_artifacts
    rw [if_neg (by simp [hth])]
    rcases hmiss with h | h
    · rw [h]
    · rcases hm : env.modelCandidates.find? env.pathExists with _ | mp
      · rfl
      · rw [h]
  · intro mp tp m t h1 h2 h3 h4 hfail
    exact load_artifacts_of_ok env2 _
      (load_artifacts_fail_thresholds env st hth hfail) mp tp m t h1 h2 h3 h4

/-- Witness for C4 (amended): a failing first load from the unloaded state
followed by a successful retry. -/
theorem load_artifacts_retry_witness :
    (env_fail.modelCandidates.find? env_fail.pathExists =
      (env_fail.modelCandidates.filter env_fail.pathExists).head?) ∧
    ((env_fail.modelCandidates.find? env_fail.pathExists = none ∨
      env_fail.threshCandidates.find? env_fail.pathExists = none) →
      load_artifacts env_fail st0 = (st0, false)) ∧
    ((load_artifacts env_fail st0).2 = false →
      (load_artifacts env_fail st0).1.thresholds = none) ∧
    (∀ mp tp m t, env_ok.modelCandidates.find? env_ok.pathExists = some mp →
      env_ok.threshCandidates.find? env_ok.pathExists = some tp →
      env_ok.loadModel mp = some m → env_ok.loadThresh tp = some t →
      (load_artifacts env_fail st0).2 = false →
      load_artifacts env_ok (load_artifacts env_fail st0).1 =
        (⟨some m, some t⟩, true)) :=
  load_artifacts_retry env_fail env_ok st0 rfl

unseal Rat.add Rat.mul Rat.inv Rat.sub Rat.ofScientific in
/-- Counterexample to C5 as stated: at scenario E's inputs (`raw_min = 0`,
`raw_max = 10`, `expm1(pred) = 5`) the code's scaled value is
`5 / (10 + 1e-9)`, not exactly `0.5` — the rescale denominator carries a
`1e-9` guard. -/
theorem inflow_scaled_half_counterexample :
    clip01 ((5 - 0) / ((10 - 0) + eps9)) ≠ 1 / 2 := by decide

unseal Rat.add Rat.mul Rat.inv Rat.sub Rat.ofScientific in
/-- Claim C5 (amended): the ML inflow score is `expm1(pred)` rescaled with
denominator `(raw_max - raw_min) + 1e-9`, clamped to `[0, 1]`, mapped onto
`[3.0, 6.0]` and rounded to 2 decimals; at scenario E's inputs the scaled
value is `5000000000 / 10000000001` (within `1e-9` of `0.5`), the inflow
score is exactly `4.5`, and the tier is WATCH. -/
theorem to_inflow_score_scenario (expm1 : ℚ → ℚ) (pred raw raw_min raw_max : ℚ)
    (hp : expm1 pred = 5) :
    clip01 ((expm1 pred - 0) / ((10 - 0) + eps9)) = 5000000000 / 10000000001 ∧
    |clip01 ((expm1 pred - 0) / ((10 - 0) + eps9)) - 1 / 2| < eps9 ∧
    to_inflow_score expm1 pred 0 10 = 4.5 ∧
    inflow_tier (to_inflow_score expm1 pred 0 10) 4 5 = "WATCH" ∧
    to_inflow_score_raw raw raw_min raw_max =
      round2 (3 + (6 - 3) * clip01 ((raw - raw_min) / ((raw_max - raw_min) + eps9))) ∧
    3 ≤ to_inflow_score_raw raw raw_min raw_max ∧
    to_inflow_score_raw raw raw_min raw_max ≤ 6 := by
  rw [to_inflow_score, hp]
  have hx := clip01_mem ((raw - raw_min) / ((raw_max - raw_min) + eps9))
  have hraw : to_inflow_score_raw raw raw_min raw_max =
      round2 (3 + (6 - 3) * clip01 ((raw - raw_min) / ((raw_max - raw_min) + eps9))) := rfl
  refine ⟨by decide, by decide, by decide, by decide, rfl, ?_, ?_⟩
  · rw [hraw]
    calc (3 : ℚ) = round2 3 := by decide
      _ ≤ _ := round2_mono (by nlinarith [hx.1])
  · rw [hraw]
    calc round2 (3 + (6 - 3) * clip01 ((raw - raw_min) / ((raw_max - raw_min) + eps9)))
        ≤ round2 6 := round2_mono (by nlinarith [hx.2])
      _ = 6 := by decide

/-- Witness for C5 (amended) with the constant model output `expm1 = 5` and
an arbitrary further input `raw = 7` in the window `[0, 10]`. -/
theorem to_inflow_score_scenario_witness :
    clip01 (((fun _ : ℚ => (5 : ℚ)) 0 - 0) / ((10 - 0) + eps9)) =
      5000000000 / 10000000001 ∧
    |clip01 (((fun _ : ℚ => (5 : ℚ)) 0 - 0) / ((10 - 0) + eps9)) - 1 / 2| < eps9 ∧
    to_inflow_score (fun _ : ℚ => (5 : ℚ)) 0 0 10 = 4.5 ∧
    inflow_tier (to_inflow_score (fun _ : ℚ => (5 : ℚ)) 0 0 10) 4 5 = "WATCH" ∧
    to_inflow_score_raw 7 0 10 =
      round2 (3 + (6 - 3) * clip01 ((7 - 0) / ((10 - 0) + eps9))) ∧
    3 ≤ to_inflow_score_raw 7 0 10 ∧
    to_inflow_score_raw 7 0 10 ≤ 6 :=
  to_inflow_score_scenario (fun _ : ℚ => (5 : ℚ)) 0 7 0 10 rfl

unseal Rat.add Rat.mul Rat.inv Rat.sub Rat.ofScientific in
/-- Counterexample to C6 as stated: in the ML module the metric is rounded
inside the score derivation (`to_inflow_score`) and the tier is computed from
the rounded value — at `raw = 3.33`, `raw_min = 0`, `raw_max = 10`,
`watch = 4`, `surge = 5` the code's score is `4.0` and its tier WATCH, while
the tier of the unrounded metric is NORMAL. -/
theorem ml_tier_rounding_counterexample :
    to_inflow_score_raw 3.33 0 10 = round2 (inflow_score_unrounded 3.33 0 10) ∧
    round2 (inflow_score_unrounded 3.33 0 10) ≠ inflow_score_unrounded 3.33 0 10 ∧
    inflow_tier (to_inflow_score_raw 3.33 0 10) 4 5 = "WATCH" ∧
    inflow_tier (inflow_score_unrounded 3.33 0 10) 4 5 = "NORMAL" := by
  refine ⟨rfl, by decide, by decide, by decide⟩

/-- Claim C6 (amended): in the rule-based modules every materialized alert
comes from a derived group whose unrounded metric feeds the tier classifier,
with the stored ratio rounded to 2 decimals only at alert materialization;
in the ML module, by contrast, the score derivation itself rounds to
2 decimals (and the tier is computed from that rounded score). -/
theorem rounding_at_assembly_boundary (p : String → Option DateT) (f : Frame)
    (month? : Option String) (limit : ℕ)
    (a : BiometricIntegrityAlert) (b : LostGenerationAlert)
    (ha : a ∈ compute_bis_alerts p f month? limit)
    (hb : b ∈ compute_lost_generation_alerts p f month? limit) :
    (∃ d ∈ bis_derived_rows p f month?,
      a = mk_bis_alert d ∧
      a.capture_gap_tier = tier_capture_gap d.capture_gap_ratio ∧
      a.capture_gap_ratio = round2 d.capture_gap_ratio ∧
      a.imbalance_tier = tier_imbalance d.imbalance_score ∧
      a.imbalance_score = d.imbalance_score.map round2) ∧
    (∃ d ∈ lg_derived_rows p f month?,
      b = mk_lg_alert d ∧
      b.tier = tier_fafi_ratio d.fafi_ratio ∧
      b.fafi_ratio = round2 d.fafi_ratio) ∧
    (∀ raw raw_min raw_max : ℚ,
      to_inflow_score_raw raw raw_min raw_max =
        round2 (inflow_score_unrounded raw raw_min raw_max)) := by
  refine ⟨?_, ?_, fun raw raw_min raw_max => rfl⟩
  · obtain ⟨d, hd, rfl⟩ := List.mem_map.mp ha
    exact ⟨d, List.mem_mergeSort.mp (List.mem_of_mem_take hd),
      rfl, rfl, rfl, rfl, rfl⟩
  · obtain ⟨d, hd, rfl⟩ := List.mem_map.mp hb
    exact ⟨d, List.mem_mergeSort.mp (List.mem_of_mem_take hd),
      rfl, rfl, rfl⟩

unseal Rat.add Rat.mul Rat.inv Rat.sub Rat.ofScientific List.merge List.mergeSort in
/-- Witness for C6 (amended) on the one-row sample frame and its two alerts. -/
theorem rounding_at_assembly_boundary_witness :
    (∃ d ∈ bis_derived_rows sample_parse sample_frame none,
      sample_bis_alert = mk_bis_alert d ∧
      sample_bis_alert.capture_gap_tier = tier_capture_gap d.capture_gap_ratio ∧
      sample_bis_alert.capture_gap_ratio = round2 d.capture_gap_ratio ∧
      sample_bis_alert.imbalance_tier = tier_imbalance d.imbalance_score ∧
      sample_bis_alert.imbalance_score = d.imbalance_score.map round2) ∧
    (∃ d ∈ lg_derived_rows sample_parse sample_frame none,
      sample_lg_alert = mk_lg_alert d ∧
      sample_lg_alert.tier = tier_fafi_ratio d.fafi_ratio ∧
      sample_lg_alert.fafi_ratio = round2 d.fafi_ratio) ∧
    (∀ raw raw_min raw_max : ℚ,
      to_inflow_score_raw raw raw_min raw_max =
        round2 (inflow_score_unrounded raw raw_min raw_max)) :=
  rounding_at_assembly_boundary sample_parse sample_frame none 20
    sample_bis_alert sample_lg_alert (by decide) (by decide)

/-- Claim C7: every alert computation returns at most `limit` records, and
the returned sequence is non-increasing in the module's primary metric
(`capture_gap_ratio`, `fafi_ratio`, `ml_inflow_score`). -/
theorem alerts_limit_and_sorted (p : String → Option DateT) (f : Frame)
    (month? : Option String) (limit : ℕ) (expm1 : ℚ → ℚ)
    (model : MlMonthRow → ℚ) (rows : List MlMonthRow)
    (raw_min raw_max watch surge : ℚ) :
    (compute_bis_alerts p f month? limit).length ≤ limit ∧
    (compute_bis_alerts p f month? limit).Pairwise
      (fun a b => b.capture_gap_ratio ≤ a.capture_gap_ratio) ∧
    (compute_lost_generation_alerts p f month? limit).length ≤ limit ∧
    (compute_lost_generation_alerts p f month? limit).Pairwise
      (fun a b => b.fafi_ratio ≤ a.fafi_ratio) ∧
    (predict_migration_model expm1 model rows month? raw_min raw_max watch
        surge limit).length ≤ limit ∧
    (predict_migration_model expm1 model rows month? raw_min raw_max watch
        surge limit).Pairwise
      (fun a b => b.ml_inflow_score ≤ a.ml_inflow_score) :=
  ⟨length_mergeSort_take_map_le _ _ _ _,
   pairwise_round_key (fun d : BisDerived => d.capture_gap_ratio)
     (fun a => a.capture_gap_ratio) mk_bis_alert (fun _ => rfl) _ _,
   length_mergeSort_take_map_le _ _ _ _,
   pairwise_round_key (fun d : LgDerived => d.fafi_ratio)
     (fun a => a.fafi_ratio) mk_lg_alert (fun _ => rfl) _ _,
   length_mergeSort_take_le _ _ _,
   pairwise_key_mergeSort_take (fun d : MlPrediction => d.ml_inflow_score) _ _⟩

/-- Claim C8: a requested month absent from the dataset's month buckets (in
particular one whose month-filtered table would be empty) yields an empty
alert list from both rule-based computations — no exception, since the
computations are total functions — and when no month is requested the
computations run on `seriesMax?` of the month series, which is the maximum
(lexicographically latest) month present. -/
theorem month_fallback_and_not_found (p : String → Option DateT) (f : Frame)
    (m : String) (limit : ℕ)
    (hm : m ∉ frame_months (ensure_month_column p f)) :
    compute_bis_alerts p f (some m) limit = [] ∧
    compute_lost_generation_alerts p f (some m) limit = [] ∧
    (compute_bis_alerts p f none limit =
      match seriesMax? (frame_months (ensure_month_column p f)) with
      | none => []
      | some mx => compute_bis_alerts p f (some mx) limit) ∧
    (compute_lost_generation_alerts p f none limit =
      match seriesMax? (frame_months (ensure_month_column p f)) with
      | none => []
      | some mx => compute_lost_generation_alerts p f (some mx) limit) ∧
    (∀ l : List String, l ≠ [] →
      ∃ mx, seriesMax? l = some mx ∧ mx ∈ l ∧ ∀ x ∈ l, x ≤ mx) := by
  refine ⟨?_, ?_, ?_, ?_, seriesMax?_spec⟩
  · rw [compute_bis_alerts, bis_derived_rows_not_mem p f m hm]
    simp
  · rw [compute_lost_generation_alerts, lg_derived_rows_not_mem p f m hm]
    simp
  · rcases hmx : seriesMax? (frame_months (ensure_month_column p f)) with _ | mx
    · have h0 : bis_derived_rows p f none = [] := by
        unfold bis_derived_rows
        dsimp only
        rw [hmx]
        split <;> rfl
      rw [compute_bis_alerts, h0]
      simp
    · have h0 : bis_derived_rows p f none = bis_derived_rows p f (some mx) := by
        unfold bis_derived_rows
        dsimp only
        rw [hmx]
      rw [compute_bis_alerts, h0]
      rfl
  · rcases hmx : seriesMax? (frame_months (ensure_month_column p f)) with _ | mx
    · have h0 : lg_derived_rows p f none = [] := by
        unfold lg_derived_rows
        dsimp only
        rw [hmx]
        split <;> rfl
      rw [compute_lost_generation_alerts, h0]
      simp
    · have h0 : lg_derived_rows p f none = lg_derived_rows p f (some mx) := by
        unfold lg_derived_rows
        dsimp only
        rw [hmx]
      rw [compute_lost_generation_alerts, h0]
      rfl

/-- Witness for C8 on the sample frame with the absent month `2024-01`. -/
theorem month_fallback_and_not_found_witness :
    compute_bis_alerts sample_parse sample_frame (some "2024-01") 20 = [] ∧
    compute_lost_generation_alerts sample_parse sample_frame
      (some "2024-01") 20 = [] ∧
    (compute_bis_alerts sample_parse sample_frame none 20 =
      match seriesMax? (frame_months (ensure_month_column sample_parse
          sample_frame)) with
      | none => []
      | some mx => compute_bis_alerts sample_parse sample_frame (some mx) 20) ∧
    (compute_lost_generation_alerts sample_parse sample_frame none 20 =
      match seriesMax? (frame_months (ensure_month_column sample_parse
          sample_frame)) with
      | none => []
      | some mx => compute_lost_generation_alerts sample_parse sample_frame
          (some mx) 20) ∧
    (∀ l : List String, l ≠ [] →
      ∃ mx, seriesMax? l = some mx ∧ mx ∈ l ∧ ∀ x ∈ l, x ≤ mx) :=
  month_fallback_and_not_found sample_parse sample_frame "2024-01" 20
    (by decide)

/-- Claim C9: the Temporal Normalizer is idempotent — applying
`ensure_month_column` twice yields exactly the table of applying it once —
and when a `month` column already exists the surviving rows keep their
original month values (the column is never recomputed; surviving months form
a sublist of the input months). -/
theorem ensure_month_column_idempotent (p : String → Option DateT) (f : Frame) :
    ensure_month_column p (ensure_month_column p f) = ensure_month_column p f ∧
    (f.hasMonth = true →
      List.Sublist ((ensure_month_column p f).rows.map (fun r => r.month))
        (f.rows.map (fun r => r.month))) := by
  obtain ⟨fp, fm, fa, rows⟩ := f
  constructor
  · unfold ensure_month_column
    cases fp <;> cases fm <;>
      simp only [Bool.false_eq_true, if_false, if_true] <;>
      congr 1 <;>
      refine List.filter_eq_self.mpr ?_ <;>
      intro r hr <;>
      first
        | · obtain ⟨s, hs, rfl⟩ := List.mem_map.mp hr
            have h2 := List.of_mem_filter hs
            exact h2
        | · have h2 := List.of_mem_filter hr
            exact h2
  · intro hm
    dsimp only at hm
    subst hm
    unfold ensure_month_column
    cases fp <;> simp only [Bool.false_eq_true, if_false, if_true]
    · have h1 : (((rows.map (fun r => { r with date := p r.rawDate })).filter
          (fun r => r.date.isSome)).map (fun r => r.month)).Sublist
          ((rows.map (fun r => { r with date := p r.rawDate })).map
            (fun r => r.month)) :=
        (List.filter_sublist _).map _
      rw [List.map_map] at h1
      exact h1
    · exact (List.filter_sublist _).map _

/-- Witness for C9 on a one-row frame that already carries a month column. -/
theorem ensure_month_column_idempotent_witness :
    ensure_month_column sample_parse (ensure_month_column sample_parse
        sample_frame_m) =
      ensure_month_column sample_parse sample_frame_m ∧
    List.Sublist ((ensure_month_column sample_parse sample_frame_m).rows.map
        (fun r => r.month))
      (sample_frame_m.rows.map (fun r => r.month)) :=
  ⟨(ensure_month_column_idempotent sample_parse sample_frame_m).1,
   (ensure_month_column_idempotent sample_parse sample_frame_m).2 rfl⟩

unseal Rat.add Rat.mul Rat.inv Rat.sub Rat.ofScientific in
/-- Counterexample to C10 as stated: pandas numeric coercion does not enforce
non-negativity or integrality — a parseable `-5` stays `-5` (negative) and a
parseable `5/2` keeps denominator 2 (not an integer). -/
theorem coercion_counterexample :
    coerce_numeric (Cell.num (-5)) < 0 ∧
    (coerce_numeric (Cell.num (5 / 2))).den ≠ 1 := by
  constructor <;> decide

/-- Claim C10 (amended): the coercion step maps unparseable measure cells to
`0`, and when every parseable raw measure value is a non-negative integer,
every coerced value in the column is a non-negative integer. -/
theorem coercion_spec (cs : List Cell)
    (h : ∀ q : ℚ, Cell.num q ∈ cs → 0 ≤ q ∧ q.den = 1) :
    coerce_numeric Cell.na = 0 ∧
    ∀ x ∈ cs.map coerce_numeric, 0 ≤ x ∧ x.den = 1 := by
  refine ⟨rfl, ?_⟩
  intro x hx
  obtain ⟨c, hc, rfl⟩ := List.mem_map.mp hx
  cases c with
  | num q => exact h q hc
  | na => exact ⟨le_refl 0, rfl⟩

/-- Witness for C10 (amended) on the column `[3, NaN]`. -/
theorem coercion_spec_witness :
    coerce_numeric Cell.na = 0 ∧
    ∀ x ∈ [Cell.num 3, Cell.na].map coerce_numeric, 0 ≤ x ∧ x.den = 1 :=
  coercion_spec [Cell.num 3, Cell.na] (by
    intro q hq
    rcases List.mem_cons.mp hq with h | h
    · injection h with h2
      subst h2
      exact ⟨by norm_num, rfl⟩
    · rcases List.mem_cons.mp h with h2 | h2
      · exact absurd h2 (by simp)
      · simp at h2)

end Trendyy
